import Mathlib

/-!
Verification of the core API-client / profile-store subsystem of
OpenAI_Model_Fetcher (src/app.py — the customtkinter variant — and
src/main.py — the PySide6 variant).

The embedding is shallow: the pure logic of the two Python modules is
translated into executable Lean definitions.  External library behaviour
(the stdlib `urllib.parse` functions, JSON decoding, the `requests`
exception hierarchy, filesystem records of `ConfigManager`) is modelled
explicitly: URLs by a faithful port of `urlsplit`/`urljoin` restricted to
the call shapes the code uses, JSON documents by the inductive `PyJson`,
a network attempt by `HttpAttempt` (either an exception raised by
`requests.get` or a response with a status code and a body), and the
profile directory by an association list from profile name to file state.
-/

deriving instance DecidableEq for Except

namespace OMF

/-! ## Python string helpers -/

/-- Characters stripped by Python `str.strip()` (ASCII whitespace subset). -/
def pyIsSpace (c : Char) : Bool :=
  c = ' ' || c = '\t' || c = '\n' || c = '\x0d' || c = '\x0b' || c = '\x0c'

/-- Drop characters satisfying `p` from both ends of a list. -/
def stripEnds (p : Char → Bool) (l : List Char) : List Char :=
  ((l.dropWhile p).reverse.dropWhile p).reverse

/-- Python `str.strip()` on the character list. -/
def pyStripL (l : List Char) : List Char := stripEnds pyIsSpace l

/-- Python `str.strip()`. -/
def pyStrip (s : String) : String := ⟨pyStripL s.data⟩

/-- Python `str.rstrip('/')` on the character list. -/
def pyRstripSlashL (l : List Char) : List Char :=
  (l.reverse.dropWhile (· = '/')).reverse

/-- Python `str.rstrip('/')`. -/
def pyRstripSlash (s : String) : String := ⟨pyRstripSlashL s.data⟩

/-- ASCII letter test (`c.isascii() and c.isalpha()` in Python). -/
def isAsciiAlpha (c : Char) : Bool :=
  ('a' ≤ c && c ≤ 'z') || ('A' ≤ c && c ≤ 'Z')

/-- ASCII digit test. -/
def isAsciiDigit (c : Char) : Bool := '0' ≤ c && c ≤ '9'

/-- Characters allowed after the first character of a URL scheme
(`scheme_chars` in `urllib.parse`). -/
def isSchemeChar (c : Char) : Bool :=
  isAsciiAlpha c || isAsciiDigit c || c = '+' || c = '-' || c = '.'

/-- ASCII lower-casing (schemes are all-ASCII when extracted). -/
def asciiLower (c : Char) : Char :=
  if 'A' ≤ c && c ≤ 'Z' then Char.ofNat (c.toNat + 32) else c

/-- Split a character list on a separator character; `"a::b"` on `:`
gives `["a", "", "b"]`, like Python `str.split(sep)`. -/
def splitOnChar (sep : Char) : List Char → List (List Char)
  | [] => [[]]
  | c :: cs =>
    match splitOnChar sep cs with
    | [] => [[]]
    | r :: rs => if c = sep then [] :: r :: rs else (c :: r) :: rs

/-- Join character lists with a separator, inverse of `splitOnChar`. -/
def joinWithChar (sep : Char) : List (List Char) → List Char
  | [] => []
  | [x] => x
  | x :: xs => x ++ sep :: joinWithChar sep xs

/-! ## `urllib.parse.urlsplit`

A port of CPython's `urlsplit` for `str` input with default arguments:
WHATWG stripping, scheme extraction, netloc extraction with the
bracketed-host (IPv6) validation that can raise `ValueError`, then
fragment and query splitting.  Errors carry the `ValueError` message. -/

/-- Hex digit test for IPv6 hextets. -/
def isHexChar (c : Char) : Bool :=
  isAsciiDigit c || ('a' ≤ c && c ≤ 'f') || ('A' ≤ c && c ≤ 'F')

/-- One IPv6 hextet: one to four hex digits. -/
def isHextet (l : List Char) : Bool :=
  decide (0 < l.length) && decide (l.length ≤ 4) && l.all isHexChar

/-- One IPv4 octet as accepted by `ipaddress`: decimal, ≤ 255, no leading
zeros, at most three digits. -/
def isIpv4Octet (l : List Char) : Bool :=
  decide (0 < l.length) && decide (l.length ≤ 3) && l.all isAsciiDigit &&
  (decide (l.length = 1) || decide (l.headD '0' ≠ '0')) &&
  decide ((l.foldl (fun n c => n * 10 + (c.toNat - '0'.toNat)) 0) ≤ 255)

/-- Dotted-quad IPv4 address. -/
def isIpv4 (l : List Char) : Bool :=
  match splitOnChar '.' l with
  | [a, b, c, d] => isIpv4Octet a && isIpv4Octet b && isIpv4Octet c && isIpv4Octet d
  | _ => false

/-- IPv6 address text, following CPython `ipaddress`'s parser: split on
`:`, optionally convert a trailing dotted quad to two hextets, allow at
most one `::` run, and check the hextet budget of eight groups. -/
def isIpv6Core (l : List Char) : Bool :=
  let parts := splitOnChar ':' l
  if decide (parts.length < 3) then false
  else
    let conv :=
      match parts.getLast? with
      | some last =>
        if last.contains '.' then
          if isIpv4 last then some (parts.dropLast ++ [['0'], ['0']]) else none
        else some parts
      | none => none
    match conv with
    | none => false
    | some parts =>
      if decide (parts.length > 9) then false
      else
        let n := parts.length
        let interiorEmpties := ((parts.drop 1).dropLast).filter (· = [])
        match interiorEmpties.length with
        | 0 =>
          decide (n = 8) && decide (parts.headD ['x'] ≠ []) &&
          decide (parts.getLastD ['x'] ≠ []) && parts.all isHextet
        | 1 =>
          let skip := ((parts.drop 1).dropLast).findIdx (· = []) + 1
          let hi := if parts.headD ['x'] = [] then
              if skip - 1 = 1 then some 0 else none
            else some skip
          let lo := if parts.getLastD ['x'] = [] then
              if n - skip - 2 = 0 then some 0 else none
            else some (n - skip - 1)
          match hi, lo with
          | some hi, some lo =>
            decide (hi + lo + 1 ≤ 8) &&
            (parts.filter (· ≠ [])).all isHextet
          | _, _ => false
        | _ => false

/-- `ipaddress.IPv6Address` on text, with optional `%zone` scope. -/
def isIpv6 (l : List Char) : Bool :=
  match splitOnChar '%' l with
  | [addr] => isIpv6Core addr
  | [addr, zone] => decide (zone ≠ []) && isIpv6Core addr
  | _ => false

/-- `urllib.parse._check_bracketed_host`: an IPvFuture literal
(`v<hex>.<text>`) or a valid IPv6 address; anything else raises. -/
def bracketedHostOk (h : List Char) : Bool :=
  match h with
  | 'v' :: rest =>
    let hexPart := rest.takeWhile isHexChar
    let tailPart := rest.drop hexPart.length
    decide (hexPart ≠ []) &&
    (match tailPart with
     | '.' :: more => decide (more ≠ [])
     | _ => false)
  | _ => isIpv6 h

/-- Result of `urlsplit` (the `params` split of `urlparse` is not needed
by this code path; the path component may still carry params text). -/
structure UrlSplit where
  scheme : String
  netloc : String
  path : String
  query : String
  fragment : String
  deriving DecidableEq, Repr

/-- CPython `urlsplit` on a character list; `Except` models the
`ValueError` raised for invalid bracketed hosts. -/
def pyUrlsplitL (l : List Char) : Except String UrlSplit :=
  let l := stripEnds (fun c => c.toNat ≤ 0x20) l
  let l := l.filter (fun c => !(c = '\t' || c = '\x0d' || c = '\n'))
  let schemeSplit :=
    match l.findIdx? (· = ':') with
    | some i =>
      if decide (0 < i) && (match l.head? with | some c => isAsciiAlpha c | none => false) &&
         ((l.take i).drop 1).all isSchemeChar then
        ((l.take i).map asciiLower, l.drop (i + 1))
      else ([], l)
    | none => ([], l)
  let scheme := schemeSplit.1
  let rest := schemeSplit.2
  let netlocSplit : Except String (List Char × List Char) :=
    if rest.take 2 = ['/', '/'] then
      let after := rest.drop 2
      let i := (after.findIdx? (fun c => c = '/' || c = '?' || c = '#')).getD after.length
      let netloc := after.take i
      if (netloc.contains '[' && !netloc.contains ']') ||
         (netloc.contains ']' && !netloc.contains '[') then
        .error "Invalid IPv6 URL"
      else if netloc.contains '[' && netloc.contains ']' then
        let h := ((netloc.dropWhile (· ≠ '[')).drop 1).takeWhile (· ≠ ']')
        if bracketedHostOk h then .ok (netloc, after.drop i)
        else .error "invalid bracketed host"
      else .ok (netloc, after.drop i)
    else .ok ([], rest)
  match netlocSplit with
  | .error e => .error e
  | .ok (netloc, rest) =>
    let fragSplit :=
      if rest.contains '#' then
        (rest.takeWhile (· ≠ '#'), (rest.dropWhile (· ≠ '#')).drop 1)
      else (rest, [])
    let querySplit :=
      if fragSplit.1.contains '?' then
        (fragSplit.1.takeWhile (· ≠ '?'), (fragSplit.1.dropWhile (· ≠ '?')).drop 1)
      else (fragSplit.1, [])
    .ok ⟨⟨scheme⟩, ⟨netloc⟩, ⟨querySplit.1⟩, ⟨querySplit.2⟩, ⟨fragSplit.2⟩⟩

/-- `urllib.parse.urlsplit` on strings. -/
def pyUrlsplit (s : String) : Except String UrlSplit := pyUrlsplitL s.data

/-! ## `OpenAIAPIClient.validate_url`, both variants -/

/-- `OpenAIAPIClient.validate_url` from src/app.py lines 26-40: strip,
reject empty, parse, require scheme `http`/`https` and a netloc; every
exception is caught and returns `False`. -/
def validate_url_app (url : String) : Bool :=
  let u := pyStrip url
  if u = "" then false
  else
    match pyUrlsplit u with
    | .error _ => false
    | .ok p =>
      if !(p.scheme = "http" || p.scheme = "https") then false
      else if p.netloc = "" then false
      else true

/-- `OpenAIAPIClient.validate_url` from src/main.py lines 39-45: parse the
stripped string, require scheme `http`/`https` and a non-empty netloc;
exceptions yield `False`. -/
def validate_url_main (url : String) : Bool :=
  match pyUrlsplit (pyStrip url) with
  | .error _ => false
  | .ok p => (p.scheme = "http" || p.scheme = "https") && !(p.netloc = "")

example : validate_url_app "https://api.openai.com/v1" = true := by decide
example : validate_url_app "   " = false := by decide
example : validate_url_app "ftp://host" = false := by decide
example : validate_url_app "http:nohost" = false := by decide
example : validate_url_app "http://[::1" = false := by decide
example : validate_url_app "HTTP://host" = true := by decide
example : validate_url_main "https://host:8080/path" = true := by decide

/-! ## `urllib.parse.urljoin` with relative reference `"models"`

Both variants build the request target with
`urljoin(self.base_url.rstrip('/') + '/', 'models')`
(src/app.py line 45, src/main.py line 49).  Below is CPython's `urljoin`
specialised to the fixed relative reference `"models"`, which has no
scheme, netloc, query or fragment, so the merge branch always runs when
the base scheme admits relative resolution. -/

/-- Schemes in `urllib.parse.uses_relative`. -/
def usesRelative (s : String) : Bool :=
  s ∈ ["", "ftp", "http", "gopher", "nntp", "imap", "wais", "file", "https",
       "shttp", "mms", "prospero", "rtsp", "rtspu", "sftp", "svn", "svn+ssh",
       "ws", "wss"]

/-- The dot-segment resolution loop of `urljoin`: `..` pops, `.` is
dropped, anything else is appended. -/
def dotResolve (segs : List (List Char)) : List (List Char) :=
  segs.foldl
    (fun acc seg =>
      if seg = ['.', '.'] then acc.dropLast
      else if seg = ['.'] then acc
      else acc ++ [seg])
    []

/-- `urlunsplit` for an empty query and fragment. -/
def unsplitNoQuery (scheme netloc path : List Char) : List Char :=
  let url :=
    if netloc ≠ [] ∨ path.take 2 = ['/', '/'] then
      let p := if path ≠ [] ∧ path.take 1 ≠ ['/'] then '/' :: path else path
      ['/', '/'] ++ netloc ++ p
    else path
  if scheme ≠ [] then scheme ++ ':' :: url else url

/-- `urljoin(b, "models")` on a character list.  The parse of the base
can raise (invalid bracketed host), which propagates as an error. -/
def joinModelsL (b : List Char) : Except String (List Char) :=
  if b = [] then .ok ['m', 'o', 'd', 'e', 'l', 's']
  else
    match pyUrlsplitL b with
    | .error e => .error e
    | .ok u =>
      if !usesRelative u.scheme then .ok ['m', 'o', 'd', 'e', 'l', 's']
      else
        let baseParts := splitOnChar '/' u.path.data
        let baseParts :=
          if baseParts.getLastD [] ≠ [] then baseParts.dropLast else baseParts
        let segments := baseParts ++ [['m', 'o', 'd', 'e', 'l', 's']]
        let segments :=
          match segments with
          | [] => []
          | [x] => [x]
          | x :: xs => x :: ((xs.dropLast).filter (· ≠ [])) ++ [xs.getLastD []]
        let resolved := dotResolve segments
        let path := joinWithChar '/' resolved
        let path := if path = [] then ['/'] else path
        .ok (unsplitNoQuery u.scheme.data u.netloc.data path)

/-- The request target both `fetch_models` implementations compute:
`urljoin(base_url.rstrip('/') + '/', 'models')`. -/
def resolveEndpoint (base : String) : Except String String :=
  match joinModelsL (pyRstripSlashL base.data ++ ['/']) with
  | .error e => .error e
  | .ok l => .ok ⟨l⟩

example : resolveEndpoint "https://api.example.com/v1" =
    .ok "https://api.example.com/v1/models" := by decide
example : resolveEndpoint "https://api.example.com/v1/" =
    .ok "https://api.example.com/v1/models" := by decide
example : resolveEndpoint "https://x" = .ok "https://x/models" := by decide
example : resolveEndpoint "https://x//a" = .ok "https://x/a/models" := by decide

/-! ## JSON documents -/

/-- A parsed JSON document as `json.loads` produces it. -/
inductive PyJson where
  | null : PyJson
  | bool : Bool → PyJson
  | int : Int → PyJson
  | str : String → PyJson
  | arr : List PyJson → PyJson
  | obj : List (String × PyJson) → PyJson
  deriving Repr

/-- First-match lookup, Python `dict` access on the modelled object. -/
def objLookup (kvs : List (String × PyJson)) (k : String) : Option PyJson :=
  match kvs.find? (fun p => p.1 = k) with
  | some p => some p.2
  | none => none

/-- `x.get(k)` / `k in x` support: the field value when the document is an
object and has the field. -/
def pyGet (j : PyJson) (k : String) : Option PyJson :=
  match j with
  | .obj kvs => objLookup kvs k
  | _ => none

/-- Python `type(x).__name__` for the modelled documents, used in
`AttributeError` messages. -/
def pyTypeName : PyJson → String
  | .null => "NoneType"
  | .bool _ => "bool"
  | .int _ => "int"
  | .str _ => "str"
  | .arr _ => "list"
  | .obj _ => "dict"

/-- `isinstance(x, dict)`. -/
def isObj : PyJson → Bool
  | .obj _ => true
  | _ => false

/-- `isinstance(x, list)`. -/
def isArr : PyJson → Bool
  | .arr _ => true
  | _ => false

/-- Python truthiness of a JSON value (`if not models:`). -/
def pyFalsy : PyJson → Bool
  | .null => true
  | .bool b => !b
  | .int n => decide (n = 0)
  | .str s => decide (s = "")
  | .arr l => l.isEmpty
  | .obj kvs => kvs.isEmpty

/-! ## The error taxonomy

Each `raise APIError(...)` site of the two clients is tagged with the
error kind the spec assigns to it; the constructor argument is the exact
message string the Python code builds. -/

/-- A classified `APIError`: the kind of the raise site plus the message. -/
inductive ApiErr where
  | timeout : String → ApiErr
  | connectionFailed : String → ApiErr
  | networkError : String → ApiErr
  | unauthorized : String → ApiErr
  | notFound : String → ApiErr
  | serverError : String → ApiErr
  | unexpectedStatus : String → ApiErr
  | malformedResponse : String → ApiErr
  | invalidSchema : String → ApiErr
  | unknown : String → ApiErr
  deriving DecidableEq, Repr

/-- The stable kind of a classified error. -/
inductive ErrorKind where
  | timeout | connectionFailed | networkError | unauthorized | notFound
  | serverError | unexpectedStatus | malformedResponse | invalidSchema
  | unknown
  deriving DecidableEq, Repr

/-- Kind of a classified error. -/
def ApiErr.kind : ApiErr → ErrorKind
  | .timeout _ => .timeout
  | .connectionFailed _ => .connectionFailed
  | .networkError _ => .networkError
  | .unauthorized _ => .unauthorized
  | .notFound _ => .notFound
  | .serverError _ => .serverError
  | .unexpectedStatus _ => .unexpectedStatus
  | .malformedResponse _ => .malformedResponse
  | .invalidSchema _ => .invalidSchema
  | .unknown _ => .unknown

/-- Message text of a classified error. -/
def ApiErr.detail : ApiErr → String
  | .timeout m | .connectionFailed m | .networkError m | .unauthorized m
  | .notFound m | .serverError m | .unexpectedStatus m
  | .malformedResponse m | .invalidSchema m | .unknown m => m

/-! ## Python exceptions crossing the `try` blocks

`connectTimeoutE` models `requests.exceptions.ConnectTimeout`, which is a
subclass of both `Timeout` and `ConnectionError`; `jsonDecodeE` models
`requests.exceptions.JSONDecodeError`, raised by `response.json()` on an
undecodable body, which (since requests 2.27) is a subclass of both
`json.JSONDecodeError` (a `ValueError`) and `InvalidJSONError` (a
`RequestException`).  The except-clause order of the source decides which
handler such a dual-class exception reaches. -/

/-- Exceptions that the `fetch_models` handler chains can observe. -/
inductive PyExc where
  | timeoutE : PyExc
  | connectTimeoutE : String → PyExc
  | connectionErrorE : String → PyExc
  | requestE : String → PyExc
  | jsonDecodeE : String → PyExc
  | valueE : String → PyExc
  | keyE : String → PyExc
  | attributeE : String → PyExc
  | typeE : String → PyExc
  | apiE : ApiErr → PyExc
  deriving DecidableEq, Repr

/-- `isinstance(e, requests.exceptions.Timeout)`. -/
def PyExc.isTimeout : PyExc → Bool
  | .timeoutE | .connectTimeoutE _ => true
  | _ => false

/-- `isinstance(e, requests.exceptions.ConnectionError)`. -/
def PyExc.isConnError : PyExc → Bool
  | .connectionErrorE _ | .connectTimeoutE _ => true
  | _ => false

/-- `isinstance(e, requests.exceptions.RequestException)`; the JSON
decode error of `response.json()` is a `RequestException` subclass. -/
def PyExc.isRequestExc : PyExc → Bool
  | .timeoutE | .connectTimeoutE _ | .connectionErrorE _ | .requestE _
  | .jsonDecodeE _ => true
  | _ => false

/-- `str(e)` for the transported exceptions. -/
def PyExc.msg : PyExc → String
  | .timeoutE => ""
  | .connectTimeoutE m | .connectionErrorE m | .requestE m | .jsonDecodeE m
  | .valueE m | .keyE m | .attributeE m | .typeE m => m
  | .apiE a => a.detail

/-- The handler chain of src/app.py lines 79-88, in source order:
`Timeout`, `ConnectionError`, `RequestException`, `APIError` (re-raised),
then the catch-all mapping to 未知错误. -/
def appHandle (e : PyExc) : ApiErr :=
  if e.isTimeout then
    .timeout "请求超时：连接超过30秒未响应，请检查网络连接或BaseURL是否正确"
  else if e.isConnError then
    .connectionFailed ("连接错误：无法连接到服务器，请检查网络连接和BaseURL - " ++ e.msg)
  else if e.isRequestExc then
    .networkError ("网络请求错误：" ++ e.msg)
  else
    match e with
    | .apiE a => a
    | _ => .unknown ("未知错误：" ++ e.msg)

/-- The handler chain of src/main.py lines 68-79, in source order:
`Timeout`, `ConnectionError`, `RequestException`, `(ValueError, KeyError)`,
`APIError` (re-raised), then the catch-all.  A `jsonDecodeE` is a
`ValueError` too, but the earlier `RequestException` clause always
catches it first, so its `(ValueError, KeyError)` arm below is dead
code, kept to record the subclass relation. -/
def mainHandle (e : PyExc) : ApiErr :=
  if e.isTimeout then
    .timeout "请求超时：连接超过30秒未响应"
  else if e.isConnError then
    .connectionFailed ("连接错误：" ++ e.msg)
  else if e.isRequestExc then
    .networkError ("网络请求错误：" ++ e.msg)
  else
    match e with
    | .jsonDecodeE m => .malformedResponse ("响应解析错误：" ++ m)
    | .valueE m => .malformedResponse ("响应解析错误：" ++ m)
    | .keyE m => .malformedResponse ("响应解析错误：" ++ m)
    | .apiE a => a
    | _ => .unknown ("未知错误：" ++ e.msg)

/-! ## `fetch_models`, both variants

`requests.get` is modelled by an `HttpAttempt`: either the call raised a
transport exception, or it produced a response with a status code and a
body whose JSON decoding either succeeds with a document or fails with
the decoder's message.  On failure `response.json()` raises
`requests.exceptions.JSONDecodeError` — a `ValueError` and a
`RequestException` at once.  src/app.py wraps the call in a local
`except ValueError` (line 67) that converts it to an `APIError` on the
spot; src/main.py has no local handler, so the exception reaches its
outer chain, where the `RequestException` clause precedes the
`(ValueError, KeyError)` clause. -/

/-- Outcome of the single `requests.get` call. -/
inductive HttpAttempt where
  | raised : PyExc → HttpAttempt
  | resp : Nat → Except String PyJson → HttpAttempt

/-- The `try`-block body of `OpenAIAPIClient.fetch_models` in src/app.py
lines 44-77; exceptions travel in the `Except`. -/
def appFetchBody (base : String) (att : HttpAttempt) : Except PyExc PyJson :=
  match resolveEndpoint base with
  | .error m => .error (.valueE m)
  | .ok ep =>
    match att with
    | .raised e => .error e
    | .resp status body =>
      if status = 401 then
        .error (.apiE (.unauthorized "认证失败：API密钥无效或缺失（401 Unauthorized）"))
      else if status = 404 then
        .error (.apiE (.notFound ("端点不存在：" ++ ep ++ " 未找到（404 Not Found）")))
      else if status = 500 then
        .error (.apiE (.serverError "服务器错误：API服务器内部错误（500 Internal Server Error）"))
      else if status ≠ 200 then
        .error (.apiE (.unexpectedStatus ("HTTP错误：状态码 " ++ toString status)))
      else
        match body with
        | .error m =>
          .error (.apiE (.malformedResponse ("JSON解析错误：响应不是有效的JSON格式 - " ++ m)))
        | .ok data =>
          if !isObj data then
            .error (.apiE (.invalidSchema "响应格式错误：期望JSON对象"))
          else if (pyGet data "data").isNone then
            .error (.apiE (.invalidSchema "响应格式错误：缺少'data'字段"))
          else if !isArr ((pyGet data "data").getD .null) then
            .error (.apiE (.invalidSchema "响应格式错误：'data'字段应为数组"))
          else
            .ok data

/-- `OpenAIAPIClient.fetch_models` of src/app.py: the body under its
handler chain. -/
def appFetchModels (base : String) (att : HttpAttempt) : Except ApiErr PyJson :=
  match appFetchBody base att with
  | .ok v => .ok v
  | .error e => .error (appHandle e)

/-- The `try`-block body of `OpenAIAPIClient.fetch_models` in src/main.py
lines 48-66.  An undecodable 200 body raises `JSONDecodeError` out of
`resp.json()` with no local handler, and a parsed 200 body that is not
an object makes `data.get('data')` raise `AttributeError`. -/
def mainFetchBody (base : String) (att : HttpAttempt) : Except PyExc PyJson :=
  match resolveEndpoint base with
  | .error m => .error (.valueE m)
  | .ok ep =>
    match att with
    | .raised e => .error e
    | .resp status body =>
      if status = 401 then
        .error (.apiE (.unauthorized "认证失败：API密钥无效或缺失"))
      else if status = 404 then
        .error (.apiE (.notFound ("端点不存在：" ++ ep)))
      else if status = 500 then
        .error (.apiE (.serverError "服务器内部错误"))
      else if status ≠ 200 then
        .error (.apiE (.unexpectedStatus ("HTTP错误：状态码 " ++ toString status)))
      else
        match body with
        | .error m => .error (.jsonDecodeE m)
        | .ok data =>
          match data with
          | .obj kvs =>
            if !isArr ((objLookup kvs "data").getD .null) then
              .error (.apiE (.invalidSchema "响应格式错误：缺少有效的'data'字段"))
            else
              .ok data
          | _ =>
            .error (.attributeE ("'" ++ pyTypeName data ++ "' object has no attribute 'get'"))

/-- `OpenAIAPIClient.fetch_models` of src/main.py: the body under its
handler chain. -/
def mainFetchModels (base : String) (att : HttpAttempt) : Except ApiErr PyJson :=
  match mainFetchBody base att with
  | .ok v => .ok v
  | .error e => .error (mainHandle e)

/-! ## `ConfigManager` — the profile store

One durable record per profile name.  A record on disk is either
unreadable, text that fails JSON decoding, or a decoded document; the
directory is an association list keyed by profile name (`list_profiles`
globs `*.json` and returns the stems, i.e. the keys). -/

/-- State of one profile's file as `load` can encounter it. -/
inductive PFile where
  | unreadable : PFile
  | malformed : PFile
  | json : PyJson → PFile

/-- The profile directory: one entry per `<name>.json` file. -/
def Store := List (String × PFile)

/-- Find a name's record (`path.exists()` plus the read). -/
def storeLookup (st : Store) (name : String) : Option PFile :=
  match st with
  | [] => none
  | (k, f) :: rest => if k = name then some f else storeLookup rest name

/-- Remove a name's record (`Path.unlink(missing_ok=True)`). -/
def storeErase (st : Store) (name : String) : Store :=
  List.filter (fun p => p.1 ≠ name) st

/-- Write a name's record, replacing an existing one. -/
def storeInsert (st : Store) (name : String) (f : PFile) : Store :=
  (name, f) :: storeErase st name

/-- Contents `ConfigManager.save` (src/main.py lines 90-94) serialises:
`{"base_url": url, "api_key": api_key or "", "last_updated": now}`.
The wall-clock timestamp is passed in explicitly. -/
def configRecord (url : String) (apiKey : Option String) (ts : String) : PyJson :=
  .obj [("base_url", .str url), ("api_key", .str (apiKey.getD "")),
        ("last_updated", .str ts)]

/-- `ConfigManager.save(name, url, api_key)` from src/main.py: the dumped
record always round-trips through `json.loads`, so it is stored decoded. -/
def mainSave (st : Store) (name url : String) (apiKey : Option String)
    (ts : String) : Store :=
  storeInsert st name (.json (configRecord url apiKey ts))

/-- The `{"base_url": ..., "api_key": ...}` dictionary `load` returns.
A Python `None` value is `PyJson.null`. -/
structure Config where
  baseUrl : PyJson
  apiKey : PyJson

/-- The degraded default `{"base_url": None, "api_key": None}`. -/
def defaultConfig : Config := ⟨.null, .null⟩

/-- The `try`-body of `ConfigManager.load` (src/main.py lines 96-104) for
one file state: reading can raise, decoding can raise, and `data.get` on
a non-object document raises `AttributeError`. -/
def loadBody (f : Option PFile) : Except PyExc (Option Config) :=
  match f with
  | none => .ok none
  | some .unreadable => .error (.valueE "unreadable file")
  | some .malformed => .error (.valueE "json decode failure")
  | some (.json data) =>
    match data with
    | .obj kvs =>
      .ok (some ⟨(objLookup kvs "base_url").getD .null,
                 (objLookup kvs "api_key").getD (.str "")⟩)
    | _ => .error (.attributeE ("'" ++ pyTypeName data ++ "' object has no attribute 'get'"))

/-- `ConfigManager.load(name)` from src/main.py: any exception in the
body is swallowed (`except Exception: pass`) and the default returned;
an absent file also falls through to the default. -/
def mainLoad (st : Store) (name : String) : Config :=
  match loadBody (storeLookup st name) with
  | .ok (some c) => c
  | .ok none => defaultConfig
  | .error _ => defaultConfig

/-- `ConfigManager.delete(name)` from src/main.py lines 106-107: unlink
with `missing_ok=True`, for any name, including `"default"`. -/
def mainDelete (st : Store) (name : String) : Store := storeErase st name

/-- `ConfigManager.list_profiles` from src/main.py lines 109-110: the
stems of the `*.json` files, i.e. exactly the stored names. -/
def list_profiles (st : Store) : List String := st.map (fun p => p.1)

/-- `ConfigManager.clear_all` from src/main.py lines 112-114. -/
def clear_all (_st : Store) : Store := []

/-- `ConfigManager.load_config` of src/app.py lines 126-145 (the single
`config.json` of the customtkinter variant): every failure path returns
the same default dictionary. -/
def appLoadConfig (f : Option PFile) : Config :=
  match loadBody f with
  | .ok (some c) => c
  | .ok none => defaultConfig
  | .error _ => defaultConfig

/-- `ConfigManager.save_config` of src/app.py lines 111-124. -/
def appSaveConfig (url : String) (apiKey : Option String) (ts : String) :
    Option PFile :=
  some (.json (configRecord url apiKey ts))

/-! ## `ProfilesPage` — UI-level profile operations (src/main.py) -/

/-- `ProfilesPage._refresh_list` (src/main.py lines 449-459): when the
store lists no profiles it materialises one named `"默认"` — not
`"default"` — with an empty endpoint, and displays it. -/
def refreshList (st : Store) (ts : String) : Store × List String :=
  let profiles := list_profiles st
  if profiles.isEmpty then
    (mainSave st "默认" "" (some "") ts, ["默认"])
  else
    (st, profiles)

/-- `ProfilesPage._delete_profile` (src/main.py lines 489-496): deleting
the exact name `"default"` is rejected; any other name is unlinked. -/
def uiDeleteProfile (st : Store) (name : String) : Store :=
  if name = "default" then st else mainDelete st name

/-! ## The fetch success/error callbacks and the orchestration flow -/

/-- `model.get("id", "Unknown")` for one element of `data`; a non-object
element raises `AttributeError`. -/
def modelGetId (m : PyJson) : Except PyExc PyJson :=
  match m with
  | .obj kvs => .ok ((objLookup kvs "id").getD (.str "Unknown"))
  | _ => .error (.attributeE ("'" ++ pyTypeName m ++ "' object has no attribute 'get'"))

/-- The id of an object element, as the comprehension computes it. -/
def pyIdOf (m : PyJson) : PyJson :=
  match m with
  | .obj kvs => (objLookup kvs "id").getD (.str "Unknown")
  | _ => .null

/-- The left-to-right comprehension `[m.get("id", "Unknown") for m in
models]` (src/main.py line 292; the loop of src/app.py lines 502-504 is
the same traversal): the first raised exception aborts the traversal. -/
def modelIds : List PyJson → Except PyExc (List PyJson)
  | [] => .ok []
  | m :: ms =>
    match modelGetId m with
    | .error e => .error e
    | .ok v =>
      match modelIds ms with
      | .error e => .error e
      | .ok vs => .ok (v :: vs)

/-- `HomePage._on_success` (src/main.py lines 286-298): read
`result.get("data", [])`; an empty (falsy) list shows the
"未找到任何模型" warning and returns before any save; otherwise the ids
are computed and `config.save(current_profile, url, key)` runs.  The
returned flag records whether the save was invoked.  A non-list truthy
`data` value would make the comprehension raise before any save (its
elements or iteration fail); the model collapses those cases into a
single raised exception. -/
def mainOnSuccess (result : PyJson) (url key profile ts : String)
    (st : Store) : Except PyExc (Store × List PyJson × Bool) :=
  match result with
  | .obj kvs =>
    let models := (objLookup kvs "data").getD (.arr [])
    if pyFalsy models then
      .ok (st, [], false)
    else
      match models with
      | .arr ms =>
        match modelIds ms with
        | .error e => .error e
        | .ok ids => .ok (mainSave st profile url (some key) ts, ids, true)
      | other => .error (.typeE ("'" ++ pyTypeName other ++ "' object is not iterable as model objects"))
  | _ => .error (.attributeE ("'" ++ pyTypeName result ++ "' object has no attribute 'get'"))

/-- `ModelFetcherApp._on_fetch_success` (src/app.py lines 494-509): same
shape against the single config file; `_save_config` runs only after a
non-empty model list was displayed. -/
def appOnSuccess (result : PyJson) (url key ts : String)
    (cfg : Option PFile) : Except PyExc (Option PFile × List PyJson × Bool) :=
  match result with
  | .obj kvs =>
    let models := (objLookup kvs "data").getD (.arr [])
    if pyFalsy models then
      .ok (cfg, [], false)
    else
      match models with
      | .arr ms =>
        match modelIds ms with
        | .error e => .error e
        | .ok ids => .ok (appSaveConfig url (some key) ts, ids, true)
      | other => .error (.typeE ("'" ++ pyTypeName other ++ "' object is not iterable as model objects"))
  | _ => .error (.attributeE ("'" ++ pyTypeName result ++ "' object has no attribute 'get'"))

/-- Terminal outcome of one fetch invocation as the caller observes it. -/
inductive FlowOutcome where
  | validationError : String → FlowOutcome
  | failed : ApiErr → FlowOutcome
  | noModels : FlowOutcome
  | succeeded : List PyJson → FlowOutcome
  | uiRaised : PyExc → FlowOutcome

/-- `HomePage._fetch` plus its terminal callbacks (src/main.py lines
265-306): strip and gate the URL, run `fetch_models`, and deliver exactly
one outcome; `_on_error` only shows an `InfoBar`, so the store is
untouched on every failure. -/
def mainFetchFlow (urlInput keyInput profile ts : String) (att : HttpAttempt)
    (st : Store) : Store × FlowOutcome :=
  if pyStrip urlInput = "" then (st, .validationError "请输入BaseURL")
  else if !validate_url_main (pyStrip urlInput) then
    (st, .validationError "无效的URL格式")
  else
    match mainFetchModels (pyStrip (pyStrip urlInput)) att with
    | .error e => (st, .failed e)
    | .ok result =>
      match mainOnSuccess result (pyStrip urlInput) (pyStrip keyInput)
          profile ts st with
      | .ok (st2, ids, saved) =>
        if saved then (st2, .succeeded ids) else (st2, .noModels)
      | .error e => (st, .uiRaised e)

/-! ## Auxiliary predicates used by the statements -/

/-- Whether a load result value is Python `None`. -/
def isNull : PyJson → Bool
  | .null => true
  | _ => false

/-- Whether a file state is a decoded JSON object (the only state `load`
does not degrade on). -/
def isParsedObjFile : Option PFile → Bool
  | some (.json (.obj _)) => true
  | _ => false

/-- The JSON value an endpoint's optional credential corresponds to
(`None` for an absent credential). -/
def credJson : Option String → PyJson
  | none => .null
  | some s => .str s

/-! ## Store helper lemmas -/

theorem storeLookup_insert_self (st : Store) (name : String) (f : PFile) :
    storeLookup (storeInsert st name f) name = some f := by
  simp [storeInsert, storeLookup]

theorem storeLookup_erase_self (st : Store) (name : String) :
    storeLookup (storeErase st name) name = none := by
  induction st with
  | nil => rfl
  | cons p rest ih =>
    by_cases h : p.1 = name
    · simpa [storeErase, List.filter_cons, h] using ih
    · simpa [storeErase, List.filter_cons, h, storeLookup] using ih

theorem loadBody_default (f : Option PFile) (h : isParsedObjFile f = false) :
    (match loadBody f with
     | .ok (some c) => c
     | .ok none => defaultConfig
     | .error _ => defaultConfig) = defaultConfig := by
  match f with
  | none => rfl
  | some .unreadable => rfl
  | some .malformed => rfl
  | some (.json .null) => rfl
  | some (.json (.bool _)) => rfl
  | some (.json (.int _)) => rfl
  | some (.json (.str _)) => rfl
  | some (.json (.arr _)) => rfl
  | some (.json (.obj _)) => simp [isParsedObjFile] at h

/-! ## Lemmas about the success callbacks -/

theorem modelIds_length (ms ids : List PyJson) (h : modelIds ms = .ok ids) :
    ids.length = ms.length := by
  induction ms generalizing ids with
  | nil => cases h; rfl
  | cons m rest ih =>
    unfold modelIds at h
    cases hm : modelGetId m with
    | error e => rw [hm] at h; cases h
    | ok v =>
      rw [hm] at h
      cases hr : modelIds rest with
      | error e => rw [hr] at h; cases h
      | ok vs =>
        rw [hr] at h
        cases h
        simp [ih vs hr]

theorem mainOnSuccess_store (result : PyJson) (url key profile ts : String)
    (st st2 : Store) (ids : List PyJson) (b : Bool)
    (h : mainOnSuccess result url key profile ts st = .ok (st2, ids, b)) :
    (b = true → st2 = mainSave st profile url (some key) ts ∧ ids ≠ []) ∧
    (b = false → st2 = st) := by
  cases result with
  | obj kvs =>
    simp only [mainOnSuccess] at h
    split at h
    · simp only [Except.ok.injEq, Prod.mk.injEq] at h
      obtain ⟨h1, h2, h3⟩ := h
      subst h1; subst h2; subst h3
      exact ⟨fun hb => (nomatch hb), fun _ => rfl⟩
    · rename_i hfalsy
      split at h
      · rename_i ms hms
        cases hmi : modelIds ms with
        | error e => rw [hmi] at h; cases h
        | ok ids2 =>
          rw [hmi] at h
          simp only [Except.ok.injEq, Prod.mk.injEq] at h
          obtain ⟨h1, h2, h3⟩ := h
          subst h1; subst h2; subst h3
          refine ⟨fun _ => ⟨rfl, ?_⟩, fun hb => nomatch hb⟩
          intro hnil
          have hlen := modelIds_length ms ids2 hmi
          rw [hnil] at hlen
          cases ms with
          | nil =>
            rw [hms] at hfalsy
            simp [pyFalsy] at hfalsy
          | cons a l => simp at hlen
      · cases h
  | null => simp [mainOnSuccess] at h
  | bool b2 => simp [mainOnSuccess] at h
  | int n => simp [mainOnSuccess] at h
  | str s => simp [mainOnSuccess] at h
  | arr l => simp [mainOnSuccess] at h

theorem appOnSuccess_store (result : PyJson) (url key ts : String)
    (cfg cfg2 : Option PFile) (ids : List PyJson) (b : Bool)
    (h : appOnSuccess result url key ts cfg = .ok (cfg2, ids, b)) :
    (b = true → cfg2 = appSaveConfig url (some key) ts) ∧
    (b = false → cfg2 = cfg) := by
  cases result with
  | obj kvs =>
    simp only [appOnSuccess] at h
    split at h
    · simp only [Except.ok.injEq, Prod.mk.injEq] at h
      obtain ⟨h1, h2, h3⟩ := h
      subst h1; subst h3
      exact ⟨fun hb => (nomatch hb), fun _ => rfl⟩
    · split at h
      · rename_i ms hms
        cases hmi : modelIds ms with
        | error e => rw [hmi] at h; cases h
        | ok ids2 =>
          rw [hmi] at h
          simp only [Except.ok.injEq, Prod.mk.injEq] at h
          obtain ⟨h1, h2, h3⟩ := h
          subst h1; subst h3
          exact ⟨fun _ => rfl, fun hb => nomatch hb⟩
      · cases h
  | null => simp [appOnSuccess] at h
  | bool b2 => simp [appOnSuccess] at h
  | int n => simp [appOnSuccess] at h
  | str s => simp [appOnSuccess] at h
  | arr l => simp [appOnSuccess] at h

/-! ## Handler reduction lemmas -/

theorem appHandle_timeoutE :
    appHandle .timeoutE =
      .timeout "请求超时：连接超过30秒未响应，请检查网络连接或BaseURL是否正确" := rfl

theorem appHandle_connectTimeoutE (m : String) :
    appHandle (.connectTimeoutE m) =
      .timeout "请求超时：连接超过30秒未响应，请检查网络连接或BaseURL是否正确" := rfl

theorem appHandle_connectionErrorE (m : String) :
    appHandle (.connectionErrorE m) =
      .connectionFailed ("连接错误：无法连接到服务器，请检查网络连接和BaseURL - " ++ m) := rfl

theorem appHandle_requestE (m : String) :
    appHandle (.requestE m) = .networkError ("网络请求错误：" ++ m) := rfl

theorem appHandle_apiE (a : ApiErr) : appHandle (.apiE a) = a := rfl

theorem mainHandle_timeoutE :
    mainHandle .timeoutE = .timeout "请求超时：连接超过30秒未响应" := rfl

theorem mainHandle_connectTimeoutE (m : String) :
    mainHandle (.connectTimeoutE m) = .timeout "请求超时：连接超过30秒未响应" := rfl

theorem mainHandle_connectionErrorE (m : String) :
    mainHandle (.connectionErrorE m) = .connectionFailed ("连接错误：" ++ m) := rfl

theorem mainHandle_requestE (m : String) :
    mainHandle (.requestE m) = .networkError ("网络请求错误：" ++ m) := rfl

theorem mainHandle_valueE (m : String) :
    mainHandle (.valueE m) = .malformedResponse ("响应解析错误：" ++ m) := rfl

theorem mainHandle_jsonDecodeE (m : String) :
    mainHandle (.jsonDecodeE m) = .networkError ("网络请求错误：" ++ m) := rfl

theorem mainHandle_attributeE (m : String) :
    mainHandle (.attributeE m) = .unknown ("未知错误：" ++ m) := rfl

theorem mainHandle_apiE (a : ApiErr) : mainHandle (.apiE a) = a := rfl

/-! ## Claim theorems -/

/-- C3: the claim says the profile named "default" is available in every
reachable store state, is returned by `list()` (materialized with an
empty Endpoint on first access), and can never be removed by a delete.
The code disagrees with itself: `list_profiles` of an empty store returns
nothing, `_refresh_list` materializes a profile named "默认" — not
"default" — and only the literal name "default" is protected from
deletion, so the materialized fallback is deletable and the store can
reach states with no "default" and no fallback at all. -/
theorem c3_default_profile_divergence :
    list_profiles ([] : Store) = [] ∧
    (list_profiles ([] : Store)).contains "default" = false ∧
    (refreshList ([] : Store) "2024-01-01T00:00:00").2 = ["默认"] ∧
    list_profiles (refreshList ([] : Store) "2024-01-01T00:00:00").1 = ["默认"] ∧
    (("默认" : String) == "default") = false ∧
    uiDeleteProfile (refreshList ([] : Store) "2024-01-01T00:00:00").1 "默认" = ([] : Store) ∧
    list_profiles
      (uiDeleteProfile (refreshList ([] : Store) "2024-01-01T00:00:00").1 "默认") = [] ∧
    (∀ st : Store, uiDeleteProfile st "default" = st) ∧
    mainDelete [("default", PFile.malformed)] "default" = ([] : Store) := by
  refine ⟨rfl, rfl, rfl, rfl, rfl, rfl, rfl, ?_, rfl⟩
  intro st
  simp [uiDeleteProfile]

/-- C4: `fetch_models` builds the target by joining the base URL,
normalized to exactly one trailing slash, with the literal path segment
`models`: the spec's two example bases resolve to
`https://api.example.com/v1/models`, with and without the trailing slash
giving identical results, and more generally the resolved endpoint only
depends on the base modulo trailing slashes (the `/v1` segment is neither
lost nor duplicated). -/
theorem c4_endpoint_join :
    resolveEndpoint "https://api.example.com/v1" =
      .ok "https://api.example.com/v1/models" ∧
    resolveEndpoint "https://api.example.com/v1/" =
      resolveEndpoint "https://api.example.com/v1" ∧
    (∀ b₁ b₂ : String, pyRstripSlash b₁ = pyRstripSlash b₂ →
      resolveEndpoint b₁ = resolveEndpoint b₂) := by
  refine ⟨by decide, by decide, ?_⟩
  intro b₁ b₂ h
  unfold pyRstripSlash at h
  injection h with hd
  simp [resolveEndpoint, hd]

/-- C4 witness: invariance under trailing-slash normalization applied to
the spec's two concrete bases. -/
theorem c4_endpoint_join_witness :
    resolveEndpoint "https://api.example.com/v1/" =
      resolveEndpoint "https://api.example.com/v1" :=
  c4_endpoint_join.2.2 "https://api.example.com/v1/" "https://api.example.com/v1"
    (by decide)

/-- C8: for every profile name, `load` returns the degraded default
`{base_url: None, api_key: None}` whenever the record is absent,
unreadable, or fails structural parsing (not a decoded JSON object), in
both variants; `load` never raises because every exception of its body is
caught and mapped to the same default. -/
theorem c8_load_safe_default :
    (∀ f : Option PFile, isParsedObjFile f = false →
      appLoadConfig f = defaultConfig) ∧
    (∀ (st : Store) (name : String), isParsedObjFile (storeLookup st name) = false →
      mainLoad st name = defaultConfig) := by
  constructor
  · intro f h
    unfold appLoadConfig
    exact loadBody_default f h
  · intro st name h
    unfold mainLoad
    exact loadBody_default (storeLookup st name) h

/-- C8 witness: a present but undecodable record loads as the default. -/
theorem c8_load_safe_default_witness :
    mainLoad [("p1", PFile.malformed)] "p1" = defaultConfig :=
  c8_load_safe_default.2 [("p1", PFile.malformed)] "p1" (by decide)

/-- C9 counterexample: saving with an absent (`None`) credential and
loading the same profile does not return the same credential value — the
loaded `api_key` is the empty string, while the saved endpoint's
credential was `None` (`PyJson.null`). -/
theorem c9_roundtrip_counterexample :
    (mainLoad (mainSave [] "p1" "https://x/v1" none "2024-01-01T00:00:00") "p1").apiKey =
      .str "" ∧
    credJson none = .null ∧
    isNull ((mainLoad (mainSave [] "p1" "https://x/v1" none "2024-01-01T00:00:00") "p1").apiKey) =
      false ∧
    isNull (credJson none) = true :=
  ⟨rfl, rfl, rfl, rfl⟩

/-- C9 (amended): `save` followed by `load` of the same name returns the
same `base_url` always and the same credential whenever one is present
(any string, including the empty string); an absent (`None`) credential
is stored and read back as the empty string.  For every name,
`delete` followed by `load` returns `{base_url: None, api_key: None}`. -/
theorem c9_roundtrip_amended :
    (∀ (st : Store) (name url k ts : String),
      mainLoad (mainSave st name url (some k) ts) name = ⟨.str url, .str k⟩) ∧
    (∀ (st : Store) (name url ts : String) (key : Option String),
      (mainLoad (mainSave st name url key ts) name).baseUrl = .str url) ∧
    (∀ (st : Store) (name url ts : String),
      (mainLoad (mainSave st name url none ts) name).apiKey = .str "") ∧
    (∀ (st : Store) (name : String), name ≠ "default" →
      mainLoad (mainDelete st name) name = ⟨.null, .null⟩) := by
  refine ⟨?_, ?_, ?_, ?_⟩
  · intro st name url k ts
    unfold mainLoad mainSave
    rw [storeLookup_insert_self]
    rfl
  · intro st name url ts key
    unfold mainLoad mainSave
    rw [storeLookup_insert_self]
    rfl
  · intro st name url ts
    unfold mainLoad mainSave
    rw [storeLookup_insert_self]
    rfl
  · intro st name _h
    unfold mainLoad mainDelete
    rw [storeLookup_erase_self]
    rfl

/-- C9 witness: delete of a non-"default" profile followed by load gives
the defaults. -/
theorem c9_roundtrip_amended_witness :
    mainLoad (mainDelete [("p1", PFile.json (configRecord "https://x/v1" (some "k") "T"))] "p1")
      "p1" = ⟨.null, .null⟩ :=
  c9_roundtrip_amended.2.2.2
    [("p1", PFile.json (configRecord "https://x/v1" (some "k") "T"))] "p1" (by decide)

/-- C10: the two duplicated URL validators — `validate_url` of the
customtkinter variant (src/app.py) and of the PySide6 variant
(src/main.py) — agree on every input string. -/
theorem c10_validators_agree (s : String) :
    validate_url_app s = validate_url_main s := by
  by_cases h : pyStrip s = ""
  · have : validate_url_main s = false := by
      unfold validate_url_main
      rw [h]
      decide
    rw [this]
    simp [validate_url_app, h]
  · unfold validate_url_app validate_url_main
    simp only [h, if_false]
    cases hp : pyUrlsplit (pyStrip s) with
    | error m => rfl
    | ok p =>
      by_cases h1 : p.scheme = "http" <;> by_cases h2 : p.scheme = "https" <;>
        by_cases h3 : p.netloc = "" <;> simp [h1, h2, h3]

/-- C1: both `fetch_models` implementations classify every outcome in the
claimed priority order: a transport timeout (including `ConnectTimeout`,
which is also a `ConnectionError` but is caught by the earlier `Timeout`
clause) maps to the Timeout kind; a connection failure maps to
ConnectionFailed carrying the underlying cause text; any other
`RequestException` maps to NetworkError; then HTTP 401 to Unauthorized,
404 to NotFound carrying the resolved endpoint URL, 500 to ServerError,
and any other non-200 status to UnexpectedStatus carrying the status
code. -/
theorem c1_outcome_classification (base ep m : String) (status : Nat)
    (body : Except String PyJson)
    (hep : resolveEndpoint base = .ok ep)
    (hst : status ≠ 200 ∧ status ≠ 401 ∧ status ≠ 404 ∧ status ≠ 500) :
    (appFetchModels base (.raised .timeoutE) =
      .error (.timeout "请求超时：连接超过30秒未响应，请检查网络连接或BaseURL是否正确")) ∧
    (appFetchModels base (.raised (.connectTimeoutE m)) =
      .error (.timeout "请求超时：连接超过30秒未响应，请检查网络连接或BaseURL是否正确")) ∧
    (appFetchModels base (.raised (.connectionErrorE m)) =
      .error (.connectionFailed ("连接错误：无法连接到服务器，请检查网络连接和BaseURL - " ++ m))) ∧
    (appFetchModels base (.raised (.requestE m)) =
      .error (.networkError ("网络请求错误：" ++ m))) ∧
    (appFetchModels base (.resp 401 body) =
      .error (.unauthorized "认证失败：API密钥无效或缺失（401 Unauthorized）")) ∧
    (appFetchModels base (.resp 404 body) =
      .error (.notFound ("端点不存在：" ++ ep ++ " 未找到（404 Not Found）"))) ∧
    (appFetchModels base (.resp 500 body) =
      .error (.serverError "服务器错误：API服务器内部错误（500 Internal Server Error）")) ∧
    (appFetchModels base (.resp status body) =
      .error (.unexpectedStatus ("HTTP错误：状态码 " ++ toString status))) ∧
    (mainFetchModels base (.raised .timeoutE) =
      .error (.timeout "请求超时：连接超过30秒未响应")) ∧
    (mainFetchModels base (.raised (.connectTimeoutE m)) =
      .error (.timeout "请求超时：连接超过30秒未响应")) ∧
    (mainFetchModels base (.raised (.connectionErrorE m)) =
      .error (.connectionFailed ("连接错误：" ++ m))) ∧
    (mainFetchModels base (.raised (.requestE m)) =
      .error (.networkError ("网络请求错误：" ++ m))) ∧
    (mainFetchModels base (.resp 401 body) =
      .error (.unauthorized "认证失败：API密钥无效或缺失")) ∧
    (mainFetchModels base (.resp 404 body) =
      .error (.notFound ("端点不存在：" ++ ep))) ∧
    (mainFetchModels base (.resp 500 body) =
      .error (.serverError "服务器内部错误")) ∧
    (mainFetchModels base (.resp status body) =
      .error (.unexpectedStatus ("HTTP错误：状态码 " ++ toString status))) := by
  obtain ⟨hs200, hs401, hs404, hs500⟩ := hst
  refine ⟨?_, ?_, ?_, ?_, ?_, ?_, ?_, ?_, ?_, ?_, ?_, ?_, ?_, ?_, ?_, ?_⟩ <;>
    simp [appFetchModels, appFetchBody, mainFetchModels, mainFetchBody, hep,
      appHandle_timeoutE, appHandle_connectTimeoutE, appHandle_connectionErrorE,
      appHandle_requestE, appHandle_apiE, mainHandle_timeoutE,
      mainHandle_connectTimeoutE, mainHandle_connectionErrorE,
      mainHandle_requestE, mainHandle_apiE, hs200, hs401, hs404, hs500]

/-- C1 witness: the classification applied at a concrete base URL,
cause text, unknown status 503, and arbitrary body. -/
theorem c1_outcome_classification_witness :
    appFetchModels "https://api.example.com/v1" (.resp 503 (.ok .null)) =
      .error (.unexpectedStatus ("HTTP错误：状态码 " ++ toString 503)) :=
  (c1_outcome_classification "https://api.example.com/v1"
    "https://api.example.com/v1/models" "boom" 503 (.ok .null)
    (by decide) (by decide)).2.2.2.2.2.2.2.1

/-- C2 counterexample: the PySide6 variant breaks the claim twice.  A
200 response whose parsed body is a JSON array (not an object) is
classified as the Unknown kind (未知错误, from the `AttributeError`
raised by `data.get` and the catch-all handler), not as InvalidSchema;
and a 200 response with an undecodable body is classified as
NetworkError (网络请求错误), not MalformedResponse, because the
`JSONDecodeError` raised by `resp.json()` is a `RequestException` and
that clause precedes `(ValueError, KeyError)` in the chain. -/
theorem c2_counterexample :
    mainFetchModels "https://api.example.com/v1" (.resp 200 (.ok (.arr []))) =
      .error (.unknown "未知错误：'list' object has no attribute 'get'") ∧
    decide (ApiErr.kind (.unknown "未知错误：'list' object has no attribute 'get'") =
      ErrorKind.invalidSchema) = false ∧
    mainFetchModels "https://api.example.com/v1"
        (.resp 200 (.error "Expecting value: line 1 column 1 (char 0)")) =
      .error (.networkError "网络请求错误：Expecting value: line 1 column 1 (char 0)") ∧
    decide (ApiErr.kind
        (.networkError "网络请求错误：Expecting value: line 1 column 1 (char 0)") =
      ErrorKind.malformedResponse) = false :=
  ⟨rfl, rfl, rfl, rfl⟩

/-- C2 (amended): on a 200 response, an unparseable body is classified as
MalformedResponse in the customtkinter variant (src/app.py), whose local
`except ValueError` catches the decoder error, but as NetworkError in
the PySide6 variant (src/main.py), where the decoder's
`JSONDecodeError` — a `RequestException` subclass — reaches the outer
chain and its `RequestException` clause precedes `(ValueError,
KeyError)`; a parsed object lacking a `data` field or whose `data` field
is not a sequence is InvalidSchema in both variants, and `{"foo":1}` is
InvalidSchema in both; a parsed body that is not an object is
InvalidSchema only in the customtkinter variant — the PySide6 variant
classifies it as Unknown, because `data.get` raises `AttributeError`
into the catch-all handler. -/
theorem c2_schema_classification (base ep m : String)
    (hep : resolveEndpoint base = .ok ep) :
    (appFetchModels base (.resp 200 (.error m)) =
      .error (.malformedResponse ("JSON解析错误：响应不是有效的JSON格式 - " ++ m))) ∧
    (∀ j : PyJson, isObj j = false →
      appFetchModels base (.resp 200 (.ok j)) =
        .error (.invalidSchema "响应格式错误：期望JSON对象")) ∧
    (∀ kvs : List (String × PyJson), objLookup kvs "data" = none →
      appFetchModels base (.resp 200 (.ok (.obj kvs))) =
        .error (.invalidSchema "响应格式错误：缺少'data'字段")) ∧
    (∀ (kvs : List (String × PyJson)) (d : PyJson),
      objLookup kvs "data" = some d → isArr d = false →
      appFetchModels base (.resp 200 (.ok (.obj kvs))) =
        .error (.invalidSchema "响应格式错误：'data'字段应为数组")) ∧
    (appFetchModels base (.resp 200 (.ok (.obj [("foo", .int 1)]))) =
      .error (.invalidSchema "响应格式错误：缺少'data'字段")) ∧
    (mainFetchModels base (.resp 200 (.error m)) =
      .error (.networkError ("网络请求错误：" ++ m))) ∧
    (∀ kvs : List (String × PyJson),
      isArr ((objLookup kvs "data").getD .null) = false →
      mainFetchModels base (.resp 200 (.ok (.obj kvs))) =
        .error (.invalidSchema "响应格式错误：缺少有效的'data'字段")) ∧
    (mainFetchModels base (.resp 200 (.ok (.obj [("foo", .int 1)]))) =
      .error (.invalidSchema "响应格式错误：缺少有效的'data'字段")) ∧
    (∀ j : PyJson, isObj j = false →
      mainFetchModels base (.resp 200 (.ok j)) =
        .error (.unknown ("未知错误：'" ++ pyTypeName j ++ "' object has no attribute 'get'"))) := by
  refine ⟨?_, ?_, ?_, ?_, ?_, ?_, ?_, ?_, ?_⟩
  · simp [appFetchModels, appFetchBody, hep, appHandle_apiE]
  · intro j hj
    simp [appFetchModels, appFetchBody, hep, appHandle_apiE, hj]
  · intro kvs hk
    simp [appFetchModels, appFetchBody, hep, appHandle_apiE, isObj, pyGet, hk]
  · intro kvs d hk hd
    simp [appFetchModels, appFetchBody, hep, appHandle_apiE, isObj, pyGet, hk, hd]
  · simp [appFetchModels, appFetchBody, hep, appHandle_apiE, isObj, pyGet, objLookup]
  · simp [mainFetchModels, mainFetchBody, hep, mainHandle_jsonDecodeE]
  · intro kvs hk
    simp [mainFetchModels, mainFetchBody, hep, mainHandle_apiE, hk]
  · simp [mainFetchModels, mainFetchBody, hep, mainHandle_apiE, objLookup, isArr]
  · intro j hj
    cases j with
    | obj kvs => simp [isObj] at hj
    | null =>
      simp [mainFetchModels, mainFetchBody, hep, mainHandle_attributeE, pyTypeName]
    | bool b =>
      simp [mainFetchModels, mainFetchBody, hep, mainHandle_attributeE, pyTypeName]
    | int n =>
      simp [mainFetchModels, mainFetchBody, hep, mainHandle_attributeE, pyTypeName]
    | str s =>
      simp [mainFetchModels, mainFetchBody, hep, mainHandle_attributeE, pyTypeName]
    | arr l =>
      simp [mainFetchModels, mainFetchBody, hep, mainHandle_attributeE, pyTypeName]

/-- C2 witness: the amended classification applied at the spec's example
body `{"foo":1}` and at an unparseable body, at a concrete base URL. -/
theorem c2_schema_classification_witness :
    appFetchModels "https://api.example.com/v1" (.resp 200 (.ok (.obj [("foo", .int 1)]))) =
      .error (.invalidSchema "响应格式错误：缺少'data'字段") :=
  (c2_schema_classification "https://api.example.com/v1"
    "https://api.example.com/v1/models" "bad json" (by decide)).2.2.2.2.1

/-- C6: each object element of a successful `data` array becomes exactly
one model id, in source order, with a missing `id` field mapped to the
literal string "Unknown": the mapping is the elementwise `pyIdOf` with
length preserved; the body `{"data":[{"id":"gpt-x"},{}]}` yields
`["gpt-x","Unknown"]` in that order in both variants, and a
present-but-empty `data` array terminates as the no-models outcome, not
as an error. -/
theorem c6_success_mapping :
    (∀ ms : List PyJson, (∀ m ∈ ms, isObj m = true) →
      modelIds ms = .ok (ms.map pyIdOf)) ∧
    (∀ ms ids : List PyJson, modelIds ms = .ok ids → ids.length = ms.length) ∧
    ((mainFetchFlow "https://api.example.com/v1" "k" "p" "T"
        (.resp 200 (.ok (.obj [("data",
          .arr [.obj [("id", .str "gpt-x")], .obj []])]))) []).2 =
      .succeeded [.str "gpt-x", .str "Unknown"]) ∧
    (appOnSuccess (.obj [("data", .arr [.obj [("id", .str "gpt-x")], .obj []])])
        "u" "k" "T" none =
      .ok (appSaveConfig "u" (some "k") "T", [.str "gpt-x", .str "Unknown"], true)) ∧
    ((mainFetchFlow "https://api.example.com/v1" "k" "p" "T"
        (.resp 200 (.ok (.obj [("data", .arr [])]))) []).2 = .noModels) := by
  refine ⟨?_, modelIds_length, rfl, rfl, rfl⟩
  intro ms
  induction ms with
  | nil => intro _h; rfl
  | cons m rest ih =>
    intro h
    have hm : isObj m = true := h m (by simp)
    cases m with
    | obj kvs =>
      have hrest := ih (fun x hx => h x (by simp [hx]))
      simp [modelIds, modelGetId, hrest, pyIdOf]
    | null => simp [isObj] at hm
    | bool b => simp [isObj] at hm
    | int n => simp [isObj] at hm
    | str s => simp [isObj] at hm
    | arr l => simp [isObj] at hm

/-- C6 witness: the elementwise mapping applied to the spec's example
`data` array. -/
theorem c6_success_mapping_witness :
    modelIds [.obj [("id", .str "gpt-x")], .obj []] =
      .ok ([PyJson.obj [("id", .str "gpt-x")], PyJson.obj []].map pyIdOf) :=
  c6_success_mapping.1 [.obj [("id", .str "gpt-x")], .obj []] (by decide)

/-- C7 (amended): a fetch invocation mutates the profile store only on a
non-empty successful result: whenever the flow terminates with anything
other than `succeeded` — validation failure, any classified API error,
the no-models outcome of an empty `data` array, or an exception in the
UI callback — the store is unchanged, and whenever it terminates with
`succeeded ids` the store equals `save(profile, url, key)` applied to the
previous store and `ids` is non-empty.  The customtkinter variant's
success callback likewise writes the config file exactly when its save
flag is set, and an empty `data` array leaves it untouched. -/
theorem c7_save_iff_nonempty_success :
    (∀ (u k p ts : String) (att : HttpAttempt) (st st2 : Store) (out : FlowOutcome),
      mainFetchFlow u k p ts att st = (st2, out) →
      ((∀ ids, out ≠ .succeeded ids) → st2 = st) ∧
      (∀ ids, out = .succeeded ids →
        ids ≠ [] ∧ st2 = mainSave st p (pyStrip u) (some (pyStrip k)) ts)) ∧
    (∀ (result : PyJson) (url key ts : String) (cfg cfg2 : Option PFile)
        (ids : List PyJson) (b : Bool),
      appOnSuccess result url key ts cfg = .ok (cfg2, ids, b) →
      cfg2 = if b then appSaveConfig url (some key) ts else cfg) ∧
    (∀ (url key ts : String) (cfg : Option PFile),
      appOnSuccess (.obj [("data", .arr [])]) url key ts cfg =
        .ok (cfg, [], false)) := by
  refine ⟨?_, ?_, ?_⟩
  · intro u k p ts att st st2 out h
    unfold mainFetchFlow at h
    split at h
    · simp only [Prod.mk.injEq] at h
      obtain ⟨h1, h2⟩ := h
      subst h1; subst h2
      exact ⟨fun _ => rfl, fun ids hids => nomatch hids⟩
    · split at h
      · simp only [Prod.mk.injEq] at h
        obtain ⟨h1, h2⟩ := h
        subst h1; subst h2
        exact ⟨fun _ => rfl, fun ids hids => nomatch hids⟩
      · split at h
        · -- fetch_models raised: outcome failed, store untouched
          simp only [Prod.mk.injEq] at h
          obtain ⟨h1, h2⟩ := h
          subst h1; subst h2
          exact ⟨fun _ => rfl, fun ids hids => nomatch hids⟩
        · -- fetch_models succeeded: split on the success callback
          split at h
          · rename_i st3 ids3 saved heq
            split at h
            · rename_i hsaved
              simp only [Prod.mk.injEq] at h
              obtain ⟨h1, h2⟩ := h
              subst h1; subst h2
              refine ⟨fun hno => ((hno ids3) rfl).elim, fun ids hids => ?_⟩
              injection hids with hids2
              subst hids2
              have hs := (mainOnSuccess_store _ _ _ _ _ _ _ _ _ heq).1 hsaved
              exact ⟨hs.2, hs.1⟩
            · rename_i hsaved
              simp only [Prod.mk.injEq] at h
              obtain ⟨h1, h2⟩ := h
              subst h1; subst h2
              have hb : saved = false := by
                cases saved with
                | false => rfl
                | true => exact absurd rfl hsaved
              refine ⟨fun _ => ?_, fun ids hids => nomatch hids⟩
              exact (mainOnSuccess_store _ _ _ _ _ _ _ _ _ heq).2 hb
          · -- callback raised: store untouched
            simp only [Prod.mk.injEq] at h
            obtain ⟨h1, h2⟩ := h
            subst h1; subst h2
            exact ⟨fun _ => rfl, fun ids hids => nomatch hids⟩
  · intro result url key ts cfg cfg2 ids b h
    have := appOnSuccess_store result url key ts cfg cfg2 ids b h
    cases b with
    | true => simpa using this.1 rfl
    | false => simpa using this.2 rfl
  · intro url key ts cfg
    rfl

/-- C7 witness: a concrete non-empty success mutates the store to exactly
the saved profile record, and its model list is non-empty. -/
theorem c7_save_iff_nonempty_success_witness :
    ([PyJson.str "gpt-x"] ≠ [] ∧
      (mainSave [] "p" "https://api.example.com/v1" (some "k") "T" : Store) =
        mainSave [] "p" (pyStrip "https://api.example.com/v1")
          (some (pyStrip "k")) "T") :=
  (c7_save_iff_nonempty_success.1 "https://api.example.com/v1" "k" "p" "T"
      (.resp 200 (.ok (.obj [("data", .arr [.obj [("id", .str "gpt-x")]])])))
      [] (mainSave [] "p" "https://api.example.com/v1" (some "k") "T")
      (.succeeded [.str "gpt-x"]) (by rfl)).2 [.str "gpt-x"] rfl

/-- C7 counterexample: a successful fetch whose `data` array is empty —
the claim says the orchestrator saves for every successful FetchResult
including an empty one — leaves the store exactly as it was: no
`save` is invoked, and the store differs from what any save would have
produced. -/
theorem c7_empty_success_counterexample :
    mainFetchFlow "https://api.example.com/v1" "k" "p" "T"
        (.resp 200 (.ok (.obj [("data", .arr [])]))) [] = ([], .noModels) ∧
    list_profiles
      (mainFetchFlow "https://api.example.com/v1" "k" "p" "T"
        (.resp 200 (.ok (.obj [("data", .arr [])]))) []).1 = [] ∧
    list_profiles (mainSave [] "p" "https://api.example.com/v1" (some "k") "T") =
      ["p"] :=
  ⟨rfl, rfl, rfl⟩

end OMF
